import Mathlib

/-!
# Grounded-generation pipeline: shallow embedding

This file embeds the retrieval / grounding / enrichment core of the
repository in Lean and proves the specification claims about it:

* `CourseService._retrieve_generation_context`, `_keyword_score`,
  `_grounding_score`, `generate_theory_material`, `generate_lab_material`
  (backend/app/courses/service.py);
* the in-process similarity scan of `VectorRepository.similarity_search` /
  `similarity_search_by_user` (backend/app/vectorstore/repository.py);
* `ExternalKnowledgeService` (backend/app/external/knowledge.py).

Modelling conventions:
* Python floats are modelled as exact rationals (`ℚ`); cosine similarity,
  which divides by real square roots, is the one real-valued definition.
* Python strings are modelled as `List Char`, with the ASCII behaviour of
  `str.lower` / `str.strip`; metadata dictionaries are modelled as a record
  with one optional field per key the code reads (a missing key is `none`).
* Network and database responses are inputs of the embedded functions
  (oracles): the embedding covers everything the code computes from them.
* Raised exceptions are `Except.error`; exception handlers are `match`.
-/

/-- ASCII model of Python's `str.lower` on one character. -/
def lowerChar (c : Char) : Char :=
  if 65 ≤ c.toNat ∧ c.toNat ≤ 90 then Char.ofNat (c.toNat + 32) else c

/-- ASCII model of Python's `str.lower`. -/
def lowerL (s : List Char) : List Char := s.map lowerChar

/-- Whitespace recognised by Python's `str.strip` (ASCII subset). -/
def isSpacePy (c : Char) : Bool :=
  c == ' ' || c == '\t' || c == '\n' || c == '\r' || c == '\x0b' || c == '\x0c'

/-- Python's `str.strip`: drop leading and trailing whitespace. -/
def stripL (s : List Char) : List Char :=
  ((s.dropWhile isSpacePy).reverse.dropWhile isSpacePy).reverse

/-- `pre` is a prefix of `s` (helper for the substring test). -/
def prefixOfL : List Char → List Char → Bool
  | [], _ => true
  | _ :: _, [] => false
  | a :: x, b :: y => a == b && prefixOfL x y

/-- Python's `kw in hay` substring containment. -/
def substrOfL (kw : List Char) : List Char → Bool
  | [] => kw.isEmpty
  | c :: rest => prefixOfL kw (c :: rest) || substrOfL kw rest

def allDigitsL (s : List Char) : Bool := s.all (fun c => c.isDigit)

def digitsValL (s : List Char) : Nat :=
  s.foldl (fun n c => 10 * n + (c.toNat - 48)) 0

/-- Python's `int(s)` on a string: strip whitespace, optional sign, digits;
`none` models the `ValueError` of an unparseable string. -/
def parseIntPy (s : List Char) : Option Int :=
  match stripL s with
  | [] => none
  | '+' :: rest => if rest ≠ [] ∧ allDigitsL rest then some (digitsValL rest) else none
  | '-' :: rest => if rest ≠ [] ∧ allDigitsL rest then some (-(digitsValL rest : Int)) else none
  | c :: rest => if allDigitsL (c :: rest) then some (digitsValL (c :: rest)) else none

/-- A character matched by the keyword regex `[a-z0-9]+` (on lowered text). -/
def isKwChar (c : Char) : Bool :=
  decide ((97 ≤ c.toNat ∧ c.toNat ≤ 122) ∨ (48 ≤ c.toNat ∧ c.toNat ≤ 57))

/-- Maximal runs of keyword characters (`re.findall` of `[a-z0-9]+`);
`cur` is the reversed run being accumulated. -/
def kwRuns (cur : List Char) : List Char → List (List Char)
  | [] => if cur.isEmpty then [] else [cur.reverse]
  | c :: cs =>
    if isKwChar c then kwRuns (c :: cur) cs
    else if cur.isEmpty then kwRuns [] cs
    else cur.reverse :: kwRuns [] cs

/-- Keyword extraction of `_retrieve_generation_context`: lowercase
alphanumeric tokens of the query, of length at least 3. -/
def extractKeywords (q : List Char) : List (List Char) :=
  (kwRuns [] (lowerL q)).filter (fun w => 3 ≤ w.length)

/-- The value stored under the `similarity` key of a retrieved chunk:
a parseable number, or a value `float()` raises on (`None`). -/
inductive SimValue where
  | num (q : ℚ)
  | null
deriving DecidableEq

/-- Week metadata may be stored as an int or as a string (JSON drift). -/
inductive WeekValue where
  | int (i : Int)
  | str (s : List Char)
deriving DecidableEq

/-- A retrieved chunk as `similarity_search` / the fallback query shape it:
the dictionary keys the retrieval code reads. `similarity = none` models a
dictionary without the key; `some .null` models `similarity: None`. -/
structure Chunk where
  similarity : Option SimValue := none
  content : List Char := []
  mdCategory : Option (List Char) := none
  mdTopic : Option (List Char) := none
  mdTitle : Option (List Char) := none
  mdWeek : Option WeekValue := none
  mdLanguage : Option (List Char) := none
  mdKind : Option (List Char) := none
  source : Option (List Char) := none
  type : Option (List Char) := none
  fileUrl : Option (List Char) := none
deriving DecidableEq

/-- A row of the `documents` table as the metadata fallback query returns it. -/
structure FallbackDoc where
  content : List Char := []
  mdCategory : Option (List Char) := none
  mdTopic : Option (List Char) := none
  mdTitle : Option (List Char) := none
  mdWeek : Option WeekValue := none
  mdLanguage : Option (List Char) := none
  mdKind : Option (List Char) := none
  source : Option (List Char) := none
  type : Option (List Char) := none
  fileUrl : Option (List Char) := none
deriving DecidableEq

/-- The chunk dictionary `_retrieve_generation_context` builds from a
fallback row: `similarity` is set to `None`. -/
def FallbackDoc.toChunk (d : FallbackDoc) : Chunk :=
  { similarity := some .null, content := d.content, mdCategory := d.mdCategory,
    mdTopic := d.mdTopic, mdTitle := d.mdTitle, mdWeek := d.mdWeek,
    mdLanguage := d.mdLanguage, mdKind := d.mdKind, source := d.source,
    type := d.type, fileUrl := d.fileUrl }

/-- The keyword arguments of `_retrieve_generation_context`. -/
structure RetrieveParams where
  query : List Char
  category : Option (List Char) := none
  topic : Option (List Char) := none
  week : Option Int := none
  language : Option (List Char) := none
  topK : Nat := 6
  includeGenerated : Bool := false
deriving DecidableEq

/-- What the external collaborators hand one `_retrieve_generation_context`
call: the vector-search response and the fallback query response (`none`
models the fallback query raising; its exception is contained). -/
structure RetrieveEnv where
  rawChunks : List Chunk
  fallbackDocs : Option (List FallbackDoc) := none
deriving DecidableEq

/-- The generated-content markers `_matches_filters` rejects when
`include_generated` is false: `source` tag `generated_material`/`generated`
(lowered), or `metadata.kind` starting with `generated_` (lowered). -/
def isGenMarked (c : Chunk) : Bool :=
  (lowerL (c.source.getD []) == "generated_material".data)
  || (lowerL (c.source.getD []) == "generated".data)
  || prefixOfL "generated_".data (lowerL (c.mdKind.getD []))

/-- The metadata filters of `_matches_filters` (category / topic / week /
language), each skipped when the corresponding argument is falsy. -/
def matchesMetaFilters (p : RetrieveParams) (c : Chunk) : Bool :=
  (match p.category with
   | none => true
   | some cat =>
     cat.isEmpty || (lowerL (stripL (c.mdCategory.getD [])) == lowerL (stripL cat)))
  && (match p.topic with
      | none => true
      | some t =>
        t.isEmpty ||
        (match c.mdTopic with
         | none => false
         | some mt => lowerL (stripL mt) == lowerL (stripL t)))
  && (match p.week with
      | none => true
      | some w =>
        match c.mdWeek with
        | none => false
        | some (.int i) => i == w
        | some (.str s) =>
          match parseIntPy s with
          | some i => i == w
          | none => false)
  && (match p.language with
      | none => true
      | some lg =>
        lg.isEmpty || (lowerL (stripL (c.mdLanguage.getD [])) == lowerL (stripL lg)))

/-- `_matches_filters` of `_retrieve_generation_context`: generated-content
exclusion (unless `include_generated`), then the metadata filters. -/
def matchesFilters (p : RetrieveParams) (c : Chunk) : Bool :=
  (p.includeGenerated || !isGenMarked c) && matchesMetaFilters p c

/-- The similarity used as primary sort key:
`float(c.get("similarity", 0.0) or 0.0)` — a missing key or a falsy value
(`None`) becomes `0.0`. -/
def simOr0 (c : Chunk) : ℚ :=
  match c.similarity with
  | some (.num q) => q
  | _ => 0

/-- `_keyword_score`: the number of query keywords occurring in the
space-joined haystack of lowered metadata topic, metadata title and the
first 800 characters of the content. -/
def keywordScore (kws : List (List Char)) (c : Chunk) : Nat :=
  let hay := lowerL (c.mdTopic.getD []) ++ [' '] ++ lowerL (c.mdTitle.getD [])
    ++ [' '] ++ lowerL (c.content.take 800)
  (kws.filter (fun kw => !kw.isEmpty && substrOfL kw hay)).length

/-- The rerank sort key `(similarity_or_0, keyword_score)`. -/
def rerankKey (kws : List (List Char)) (c : Chunk) : ℚ × Nat :=
  (simOr0 c, keywordScore kws c)

/-- Descending lexicographic comparison of two sort keys. -/
def pairGe (x y : ℚ × Nat) : Bool :=
  decide (y.1 < x.1) || (decide (x.1 = y.1) && decide (y.2 ≤ x.2))

def chunkGe (kws : List (List Char)) (a b : Chunk) : Bool :=
  pairGe (rerankKey kws a) (rerankKey kws b)

/-- Stable insertion into a list sorted descending by `r`. -/
def insertDesc (r : α → α → Bool) (a : α) : List α → List α
  | [] => [a]
  | b :: l => if r a b then a :: b :: l else b :: insertDesc r a l

/-- Stable sort, descending by `r` (the model of `list.sort(key=...,
reverse=True)`). -/
def sortDesc (r : α → α → Bool) : List α → List α
  | [] => []
  | a :: l => insertDesc r a (sortDesc r l)

/-- The chunks the metadata fallback query contributes: the response rows,
capped at `max(top_k * 2, top_k)`, shaped into chunks with `similarity =
None`; an exception (`fallbackDocs = none`) contributes nothing. -/
def fallbackChunks (env : RetrieveEnv) (p : RetrieveParams) : List Chunk :=
  match env.fallbackDocs with
  | none => []
  | some docs => (docs.take (max (2 * p.topK) p.topK)).map FallbackDoc.toChunk

/-- The vector-search candidates surviving the image drop and
`_matches_filters`. -/
def vectorSurvivors (env : RetrieveEnv) (p : RetrieveParams) : List Chunk :=
  (env.rawChunks.filter (fun c => !(c.type == some "image".data))).filter
    (matchesFilters p)

/-- The candidate list entering the lexical rerank: the filtered
vector-search results, replaced by the fallback chunks exactly when the
former is empty and the latter is not. -/
def survivors (env : RetrieveEnv) (p : RetrieveParams) : List Chunk :=
  if (vectorSurvivors env p).isEmpty then
    if (fallbackChunks env p).isEmpty then vectorSurvivors env p
    else fallbackChunks env p
  else vectorSurvivors env p

/-- The final `top_k` chunks: survivors sorted descending by
`(similarity_or_0, keyword_score)` and truncated. -/
def finalTop (env : RetrieveEnv) (p : RetrieveParams) : List Chunk :=
  (sortDesc (chunkGe (extractKeywords p.query)) (survivors env p)).take p.topK

/-- `max((_keyword_score(c) for c in top), default=0)`. -/
def bestOverlap (env : RetrieveEnv) (p : RetrieveParams) : Nat :=
  ((finalTop env p).map (keywordScore (extractKeywords p.query))).foldr max 0

/-- `CourseService._retrieve_generation_context` as a function of the
external responses: `Except.error ()` is the `ValueError` ("No relevant
grounded context found…") raised by the grounding-refusal check. -/
def retrieveCtx (env : RetrieveEnv) (p : RetrieveParams) :
    Except Unit (List Chunk) :=
  if !(extractKeywords p.query).isEmpty && p.week.isNone && p.topic.isNone then
    if bestOverlap env p = 0 then .error () else .ok (finalTop env p)
  else .ok (finalTop env p)

/-- What `float(c.get("similarity", 0.0))` contributes to `_grounding_score`:
a missing key yields the default `0.0`; a present `None` raises inside the
`try` and is skipped. -/
def simOf (c : Chunk) : Option ℚ :=
  match c.similarity with
  | none => some 0
  | some (.num q) => some q
  | some .null => none

/-- `CourseService._grounding_score`: `None` on an empty list or when no
similarity parses; otherwise the mean of the parsed similarities clamped
to `[0, 1]`. -/
def groundingScore (chunks : List Chunk) : Option ℚ :=
  if chunks.isEmpty then none
  else if (chunks.filterMap simOf).isEmpty then none
  else some (max 0 (min 1
    ((chunks.filterMap simOf).sum / ((chunks.filterMap simOf).length : ℚ))))

/-- The enrichment condition of `generate_theory_material` /
`generate_lab_material`: `len(retrieved) < 3 or (score is not None and
score < 0.55)`. -/
def enrichTrigger (retrieved : List Chunk) : Bool :=
  decide (retrieved.length < 3)
  || (match groundingScore retrieved with
      | some s => decide (s < 11 / 20)
      | none => false)

/-- An external reference dictionary `{title, extract, url, source}`. -/
structure ExtRef where
  title : List Char := []
  extract : List Char := []
  url : List Char := []
  source : List Char := []
deriving DecidableEq

/-- External responses one `generate_theory_material` call sees, plus its
arguments: the retrieval oracles and the enrichment outcome (`none` models
`enrich_topic` raising; that exception is swallowed). -/
structure TheoryEnv where
  retEnv : RetrieveEnv
  topicArg : List Char
  depth : List Char
  week : Option Int := none
  topicFilter : Option (List Char) := none
  enrichResult : Option (List ExtRef) := none
deriving DecidableEq

/-- The retrieval arguments `generate_theory_material` builds:
query `f"{topic} {depth}"`, category `"theory"`, `top_k = 6`. -/
def theoryParams (e : TheoryEnv) : RetrieveParams :=
  { query := e.topicArg ++ [' '] ++ e.depth, category := some "theory".data,
    topic := e.topicFilter, week := e.week, topK := 6 }

/-- The course chunks `generate_theory_material` retrieves; the
`NoGroundingFound` `ValueError` is caught and yields `[]`. -/
def retrievedTheory (e : TheoryEnv) : List Chunk :=
  match retrieveCtx e.retEnv (theoryParams e) with
  | .ok l => l
  | .error _ => []

/-- Whether `generate_theory_material` calls the external-knowledge
enricher. -/
def enrichInvokedTheory (e : TheoryEnv) : Bool :=
  enrichTrigger (retrievedTheory e)

/-- The external references of one `generate_theory_material` call:
fetched only when the trigger holds; an enricher failure yields `[]`. -/
def externalsTheory (e : TheoryEnv) : List ExtRef :=
  if enrichInvokedTheory e then e.enrichResult.getD [] else []

/-- External responses one `generate_lab_material` call sees, plus its
arguments. The vector search is queried with the same arguments on both
attempts (`rawChunks`); the metadata fallback query differs between the
attempts (`fallbackDocs1` carries the language filter, `fallbackDocs2`
does not). -/
structure LabEnv where
  rawChunks : List Chunk
  fallbackDocs1 : Option (List FallbackDoc) := none
  fallbackDocs2 : Option (List FallbackDoc) := none
  topicArg : List Char
  language : List Char
  week : Option Int := none
  topicFilter : Option (List Char) := none
  enrichResult : Option (List ExtRef) := none
deriving DecidableEq

/-- The first lab retrieval call: query `f"{topic} implementation
{language}"`, category `"lab"`, the requested language as filter. -/
def labParams1 (e : LabEnv) : RetrieveParams :=
  { query := e.topicArg ++ " implementation ".data ++ e.language,
    category := some "lab".data, topic := e.topicFilter, week := e.week,
    language := some e.language, topK := 6 }

/-- The retry retrieval call: identical except the language filter is
dropped. -/
def labParams2 (e : LabEnv) : RetrieveParams :=
  { query := e.topicArg ++ " implementation ".data ++ e.language,
    category := some "lab".data, topic := e.topicFilter, week := e.week,
    topK := 6 }

def labEnv1 (e : LabEnv) : RetrieveEnv :=
  { rawChunks := e.rawChunks, fallbackDocs := e.fallbackDocs1 }

def labEnv2 (e : LabEnv) : RetrieveEnv :=
  { rawChunks := e.rawChunks, fallbackDocs := e.fallbackDocs2 }

/-- The course chunks `generate_lab_material` retrieves: the first call's
result; on its `ValueError`, the result of the retry without the language
filter; on a second `ValueError`, `[]`. -/
def retrievedLab (e : LabEnv) : List Chunk :=
  match retrieveCtx (labEnv1 e) (labParams1 e) with
  | .ok l => l
  | .error _ =>
    match retrieveCtx (labEnv2 e) (labParams2 e) with
    | .ok l => l
    | .error _ => []

/-- Whether `generate_lab_material` calls the external-knowledge enricher. -/
def enrichInvokedLab (e : LabEnv) : Bool :=
  enrichTrigger (retrievedLab e)

def externalsLab (e : LabEnv) : List ExtRef :=
  if enrichInvokedLab e then e.enrichResult.getD [] else []

/-- What a generation call has gathered once it passes the
insufficient-grounding gate; the generated material is built and persisted
only from this state. -/
structure GenOutcome where
  retrieved : List Chunk
  externalRefs : List ExtRef
deriving DecidableEq

/-- The insufficient-grounding gate shared by both generators: raise
(`Except.error ()`, the "No course materials or external knowledge found"
`ValueError`) exactly when both source sets are empty, before anything is
generated or persisted. -/
def groundingGate (retrieved : List Chunk) (externalRefs : List ExtRef) :
    Except Unit GenOutcome :=
  if retrieved.isEmpty && externalRefs.isEmpty then .error ()
  else .ok { retrieved := retrieved, externalRefs := externalRefs }

/-- `generate_theory_material` up to the point the material is generated
and persisted: `.ok` states are the ones that reach the LLM call and the
`generated_materials` insert. -/
def generateTheoryPhase (e : TheoryEnv) : Except Unit GenOutcome :=
  groundingGate (retrievedTheory e) (externalsTheory e)

/-- `generate_lab_material` up to the same gate. -/
def generateLabPhase (e : LabEnv) : Except Unit GenOutcome :=
  groundingGate (retrievedLab e) (externalsLab e)

/-- `np.dot` of two equal-dimension vectors (exact arithmetic). -/
def dotQ (x y : List ℚ) : ℚ := (List.zipWith (· * ·) x y).sum

/-- The squared Euclidean norm; `np.linalg.norm v > 0` iff `normSq v > 0`. -/
def normSq (x : List ℚ) : ℚ := dotQ x x

/-- A stored document row as the in-process scan of
`VectorRepository.similarity_search` / `similarity_search_by_user` reads
it (the embedding plus the payload the result dictionary passes through). -/
structure ScanDoc where
  embedding : List ℚ
  content : List Char := []
deriving DecidableEq

/-- The per-document loop shared by `similarity_search`'s in-process
branch and `similarity_search_by_user`: a result (with a similarity value
attached) is built exactly for the documents passing the positive-norm
guard `norm_query > 0 and norm_doc > 0`; the others are skipped. The
final return value is this list sorted by similarity and truncated to
`top_k`, so it attaches no similarity value not attached here. -/
def scanResults (qv : List ℚ) (docs : List ScanDoc) : List ScanDoc :=
  docs.filter (fun d => decide (0 < normSq qv) && decide (0 < normSq d.embedding))

/-- `sim = dot(q, d) / (||q|| * ||d||)`, in exact real arithmetic. -/
noncomputable def cosineSim (x y : List ℚ) : ℝ :=
  ((dotQ x y : ℚ) : ℝ) / (Real.sqrt ((normSq x : ℚ) : ℝ) * Real.sqrt ((normSq y : ℚ) : ℝ))

/-- A value stored in the external-knowledge cache: `None`, a summary
dictionary, or a search result list. -/
inductive CacheVal where
  | null
  | ref (r : ExtRef)
  | list (l : List ExtRef)
deriving DecidableEq

/-- The `ExternalKnowledgeService` cache: insertion-ordered
`key -> (expires_at, value)` entries, as a Python dict holds them. -/
abbrev KCache := List (List Char × ℤ × CacheVal)

/-- Timestamps are modelled in whole seconds (the code uses `time.time()`
floats; the cache logic only adds the TTL and compares). -/
def cacheTtl : ℤ := 3600

def cacheMaxItems : Nat := 256

/-- `_cache_get`: a miss (absent key) returns `None` unchanged; an expired
entry is popped and returns `None`; otherwise the stored value is returned
— which is itself `None` (`CacheVal.null`) when a failure was cached, so
the caller cannot tell that hit from a miss. -/
def cacheGet (now : ℤ) (c : KCache) (key : List Char) : CacheVal × KCache :=
  match c.find? (fun e => e.1 == key) with
  | none => (.null, c)
  | some e =>
    if e.2.1 ≤ now then (.null, c.filter (fun x => !(x.1 == key)))
    else (e.2.2, c)

/-- Python dict assignment: replace in place when the key exists, else
append (insertion order preserved). -/
def assocPut (c : KCache) (key : List Char) (v : ℤ × CacheVal) : KCache :=
  if c.any (fun e => e.1 == key) then
    c.map (fun e => if e.1 == key then (key, v) else e)
  else c ++ [(key, v)]

/-- `_cache_set`: best-effort eviction of the first (oldest-inserted)
entry when at capacity, then store with `expires_at = now + ttl`. -/
def cacheSet (now : ℤ) (c : KCache) (key : List Char) (v : CacheVal) : KCache :=
  let c := if cacheMaxItems ≤ c.length then c.drop 1 else c
  assocPut c key (now + cacheTtl, v)

/-- A summary endpoint body: either one `resp.json()` fails on, or one
parsing to `{title, extract, content_urls...}`. -/
inductive SummaryBody where
  | badJson
  | json (extract : List Char) (title : Option (List Char))
      (pageUrl : Option (List Char))
deriving DecidableEq

/-- The Wikipedia summary endpoint's response, as the code discriminates
it: a raised transport error, or a status code with a body. -/
inductive SummaryResp where
  | raise
  | resp (status : Nat) (body : SummaryBody)
deriving DecidableEq

/-- One page object of the search endpoint's `pages` array. -/
structure SearchPage where
  title : List Char := []
  extract : List Char := []
  key : List Char := []
deriving DecidableEq

inductive SearchBody where
  | badJson
  | json (pages : List SearchPage)
deriving DecidableEq

inductive SearchResp where
  | raise
  | resp (status : Nat) (body : SearchBody)
deriving DecidableEq

/-- `ExternalKnowledgeService.fetch_wikipedia_summary`: result, new cache
state, and how many network requests were issued (0 or 1). -/
def fetchSummary (netw : SummaryResp) (now : ℤ) (st : KCache)
    (topic : List Char) : Option ExtRef × KCache × Nat :=
  let t := stripL topic
  if t.isEmpty then (none, st, 0)
  else
    let key := "wiki:summary:".data ++ lowerL t
    let hit := cacheGet now st key
    match hit.1 with
    | .ref r => (some r, hit.2, 0)
    | .list _ => (none, hit.2, 0)
    | .null =>
      -- cached `None` (a previously cached failure) falls through to a fetch
      match netw with
      | .raise => (none, cacheSet now hit.2 key .null, 1)
      | .resp status body =>
        if status ≠ 200 then (none, cacheSet now hit.2 key .null, 1)
        else
          match body with
          | .badJson => (none, cacheSet now hit.2 key .null, 1)
          | .json extract title pageUrl =>
            let ex := stripL extract
            if ex.isEmpty then (none, cacheSet now hit.2 key .null, 1)
            else
              let r : ExtRef :=
                { title := match title with
                    | some ti => if ti.isEmpty then t else ti
                    | none => t,
                  extract := ex, url := pageUrl.getD [],
                  source := "wikipedia".data }
              (some r, cacheSet now hit.2 key (.ref r), 1)

/-- `ExternalKnowledgeService.search_wikipedia` with `limit = 2` (the value
`enrich_topic` passes): result list, new cache state, network requests. -/
def searchWikipedia (netw : SearchResp) (now : ℤ) (st : KCache)
    (query : List Char) : List ExtRef × KCache × Nat :=
  let q := stripL query
  if q.isEmpty then ([], st, 0)
  else
    let key := "wiki:search:".data ++ lowerL q ++ ":2".data
    let hit := cacheGet now st key
    match hit.1 with
    | .list l => (l, hit.2, 0)
    | .ref _ => ([], hit.2, 0)
    | .null =>
      match netw with
      | .raise => ([], cacheSet now hit.2 key (.list []), 1)
      | .resp status body =>
        if status ≠ 200 then ([], cacheSet now hit.2 key (.list []), 1)
        else
          match body with
          | .badJson => ([], cacheSet now hit.2 key (.list []), 1)
          | .json pages =>
            let results := (pages.take 2).filterMap (fun pg =>
              let ti := stripL pg.title
              let ex := stripL pg.extract
              let ky := stripL pg.key
              if ti.isEmpty || ex.isEmpty then none
              else some (ExtRef.mk ti ex
                (if ky.isEmpty then [] else "https://en.wikipedia.org/wiki/".data ++ ky)
                "wikipedia".data))
            (results, cacheSet now hit.2 key (.list results), 1)

/-- `ExternalKnowledgeService.enrich_topic`: summary first, search
fallback; total network requests issued. -/
def enrichTopic (sresp : SummaryResp) (qresp : SearchResp) (now : ℤ)
    (st : KCache) (topic : List Char) : List ExtRef × KCache × Nat :=
  match fetchSummary sresp now st topic with
  | (some r, st1, n1) => ([r], st1, n1)
  | (none, st1, n1) =>
    match searchWikipedia qresp now st1 topic with
    | (l, st2, n2) => (l, st2, n1 + n2)

/-! ## Concrete inputs used by counterexamples and witnesses -/

/-- `0.8`, in normalised constructor form (kernel-reducible). -/
def q45 : ℚ := ⟨4, 5, by norm_num, by norm_num⟩

/-- `0.9`, in normalised constructor form. -/
def q910 : ℚ := ⟨9, 10, by norm_num, by norm_num⟩

theorem q45_eq : q45 = 4 / 5 := by
  rw [q45, Rat.mk'_eq_divInt, Rat.divInt_eq_div]; norm_num

theorem q910_eq : q910 = 9 / 10 := by
  rw [q910, Rat.mk'_eq_divInt, Rat.divInt_eq_div]; norm_num

/-- `{"similarity": 0.8}`. -/
def cSim45 : Chunk := { similarity := some (.num q45) }

/-- `{"similarity": None}`. -/
def cSimNull : Chunk := { similarity := some .null }

/-- A chunk dictionary without the `similarity` key. -/
def cSimMissing : Chunk := {}

/-- `{"similarity": 0.9}`. -/
def cSim910 : Chunk := { similarity := some (.num q910) }

def envC1a : RetrieveEnv := { rawChunks := [] }

def pC1a : RetrieveParams := { query := "zzz linked lists".data }

def pC1topic : RetrieveParams :=
  { query := "zzz linked lists".data, topic := some "avl".data }

/-- An image-typed `documents` row the fallback query can return. -/
def imgDoc : FallbackDoc :=
  { content := "avl tree rotation diagram".data, type := some "image".data,
    source := some "pdf".data }

def imageChunk : Chunk := imgDoc.toChunk

def envC3 : RetrieveEnv := { rawChunks := [], fallbackDocs := some [imgDoc] }

def pC3 : RetrieveParams := { query := "avl rotation".data }

/-- A generated-material `documents` row the fallback query can return. -/
def genDoc : FallbackDoc :=
  { content := "avl rotation walkthrough".data,
    mdKind := some "generated_theory".data, type := some "text".data,
    source := some "generated_material".data }

def genChunk : Chunk := genDoc.toChunk

def envC4 : RetrieveEnv := { rawChunks := [], fallbackDocs := some [genDoc] }

def pC4 : RetrieveParams := { query := "avl rotation".data }

/-- A `documents` row matching the week-1 theory filter (its chunk carries
`similarity = None`). -/
def fbDocC5 : FallbackDoc :=
  { content := "graphs intro lecture".data, mdCategory := some "theory".data,
    mdWeek := some (.int 1) }

def refWiki : ExtRef :=
  { title := "Graph".data, extract := "a graph is a set of vertices".data,
    url := [], source := "wikipedia".data }

/-- A theory generation call whose three retrieved chunks all come from
the metadata fallback (similarity `None` each). -/
def envC5 : TheoryEnv :=
  { retEnv := { rawChunks := [], fallbackDocs := some [fbDocC5, fbDocC5, fbDocC5] },
    topicArg := "graphs".data, depth := "intro".data, week := some 1,
    enrichResult := some [refWiki] }

/-- A theory generation call with an empty namespace and a failing
enricher (end-to-end scenario B). -/
def envC6 : TheoryEnv :=
  { retEnv := { rawChunks := [] }, topicArg := "quantum computing".data,
    depth := "deep".data }

def envLC6 : LabEnv :=
  { rawChunks := [], topicArg := "quantum".data, language := "python".data }

def cHi : Chunk :=
  { similarity := some (.num 1), content := "sorting algorithms basics".data }

def cLo : Chunk :=
  { similarity := some (.num 0), content := "sorting algorithms overview".data }

def envC7 : RetrieveEnv := { rawChunks := [cLo, cHi] }

def pC7 : RetrieveParams := { query := "sorting algorithms".data }

def qW : List ℚ := [1, 0]

def dW : ScanDoc := { embedding := [0, 1] }

def dZero : ScanDoc := { embedding := [0, 0] }

def docsW : List ScanDoc := [dW, dZero]

/-- A lab chunk whose stored language (`java`) differs from the requested
one (`python`). -/
def javaChunk : Chunk :=
  { similarity := some (.num 1), content := "stack implementation in java".data,
    mdCategory := some "lab".data, mdLanguage := some "java".data,
    type := some "text".data, source := some "pdf".data }

def envC10 : LabEnv :=
  { rawChunks := [javaChunk], fallbackDocs1 := some [], fallbackDocs2 := none,
    topicArg := "stack".data, language := "python".data }

/-! ## Supporting lemmas -/

theorem insertDesc_perm (r : α → α → Bool) (a : α) (l : List α) :
    List.Perm (insertDesc r a l) (a :: l) := by
  induction l with
  | nil => exact List.Perm.refl _
  | cons b t ih =>
    unfold insertDesc
    split
    · exact List.Perm.refl _
    · exact (ih.cons b).trans (List.Perm.swap a b t)

theorem sortDesc_perm (r : α → α → Bool) (l : List α) :
    List.Perm (sortDesc r l) l := by
  induction l with
  | nil => exact List.Perm.refl _
  | cons a t ih => exact (insertDesc_perm r a (sortDesc r t)).trans (ih.cons a)

theorem insertDesc_pairwise {r : α → α → Bool}
    (htot : ∀ x y, r x y = false → r y x = true)
    (htrans : ∀ x y z, r x y = true → r y z = true → r x z = true)
    (a : α) {l : List α} (hl : l.Pairwise (fun x y => r x y = true)) :
    (insertDesc r a l).Pairwise (fun x y => r x y = true) := by
  induction l with
  | nil => simp [insertDesc]
  | cons b t ih =>
    rcases hl with _ | ⟨hb, ht⟩
    unfold insertDesc
    split
    · rename_i hab
      refine List.Pairwise.cons ?_ (List.Pairwise.cons hb ht)
      intro y hy
      rcases List.mem_cons.mp hy with rfl | hyt
      · exact hab
      · exact htrans a b y hab (hb y hyt)
    · rename_i hab
      have hab' : r a b = false := by
        revert hab; cases r a b <;> simp
      refine List.Pairwise.cons ?_ (ih ht)
      intro y hy
      rcases List.mem_cons.mp ((insertDesc_perm r a t).mem_iff.mp hy) with rfl | hyt
      · exact htot y b hab'
      · exact hb y hyt

theorem sortDesc_pairwise {r : α → α → Bool}
    (htot : ∀ x y, r x y = false → r y x = true)
    (htrans : ∀ x y z, r x y = true → r y z = true → r x z = true)
    (l : List α) : (sortDesc r l).Pairwise (fun x y => r x y = true) := by
  induction l with
  | nil => simp [sortDesc]
  | cons a t ih => exact insertDesc_pairwise htot htrans a ih

theorem pairGe_iff (x y : ℚ × Nat) :
    pairGe x y = true ↔ (y.1 < x.1 ∨ (x.1 = y.1 ∧ y.2 ≤ x.2)) := by
  simp [pairGe]

theorem pairGe_total (x y : ℚ × Nat) (h : pairGe x y = false) : pairGe y x = true := by
  rw [pairGe_iff]
  have h' : ¬(y.1 < x.1 ∨ (x.1 = y.1 ∧ y.2 ≤ x.2)) := by
    rw [← pairGe_iff, h]; simp
  push_neg at h'
  rcases lt_trichotomy x.1 y.1 with hlt | heq | hgt
  · exact Or.inl hlt
  · exact Or.inr ⟨heq.symm, (h'.2 heq).le⟩
  · exact absurd hgt (not_lt.mpr h'.1)

theorem pairGe_trans (x y z : ℚ × Nat) (h1 : pairGe x y = true)
    (h2 : pairGe y z = true) : pairGe x z = true := by
  rw [pairGe_iff] at h1 h2 ⊢
  rcases h1 with h1 | ⟨h1e, h1n⟩ <;> rcases h2 with h2 | ⟨h2e, h2n⟩
  · exact Or.inl (h2.trans h1)
  · exact Or.inl (h2e ▸ h1)
  · exact Or.inl (h1e ▸ h2)
  · exact Or.inr ⟨h1e.trans h2e, h2n.trans h1n⟩

theorem chunkGe_total (kws : List (List Char)) (x y : Chunk)
    (h : chunkGe kws x y = false) : chunkGe kws y x = true :=
  pairGe_total _ _ h

theorem chunkGe_trans (kws : List (List Char)) (x y z : Chunk)
    (h1 : chunkGe kws x y = true) (h2 : chunkGe kws y z = true) :
    chunkGe kws x z = true :=
  pairGe_trans _ _ _ h1 h2

theorem retrieveCtx_ok_eq {env : RetrieveEnv} {p : RetrieveParams}
    {out : List Chunk} (h : retrieveCtx env p = .ok out) :
    out = finalTop env p := by
  unfold retrieveCtx at h
  split at h
  · split at h
    · cases h
    · exact (Except.ok.inj h).symm
  · exact (Except.ok.inj h).symm

theorem mem_finalTop {env : RetrieveEnv} {p : RetrieveParams} {c : Chunk}
    (h : c ∈ finalTop env p) : c ∈ survivors env p := by
  unfold finalTop at h
  exact (sortDesc_perm _ _).mem_iff.mp ((List.take_sublist _ _).mem h)

theorem mem_survivors {env : RetrieveEnv} {p : RetrieveParams} {c : Chunk}
    (h : c ∈ survivors env p) :
    c ∈ vectorSurvivors env p ∨ c ∈ fallbackChunks env p := by
  unfold survivors at h
  split at h
  · split at h
    · exact Or.inl h
    · exact Or.inr h
  · exact Or.inl h

theorem mem_vectorSurvivors {env : RetrieveEnv} {p : RetrieveParams} {c : Chunk}
    (h : c ∈ vectorSurvivors env p) :
    ¬(c.type = some "image".data) ∧ matchesFilters p c = true := by
  unfold vectorSurvivors at h
  have h2 := List.mem_filter.mp h
  have h1 := List.mem_filter.mp h2.1
  refine ⟨?_, h2.2⟩
  simpa using h1.2

theorem foldr_max_eq_zero (l : List Nat) :
    l.foldr max 0 = 0 ↔ ∀ x ∈ l, x = 0 := by
  induction l with
  | nil => simp
  | cons a t ih => simp [Nat.max_eq_zero_iff, ih]

theorem dotQ_nil (y : List ℚ) : dotQ [] y = 0 := rfl

theorem dotQ_nil_right (x : List ℚ) : dotQ x [] = 0 := by
  cases x <;> rfl

theorem dotQ_cons (a b : ℚ) (x y : List ℚ) :
    dotQ (a :: x) (b :: y) = a * b + dotQ x y := by
  simp [dotQ]

theorem normSq_nonneg (x : List ℚ) : 0 ≤ normSq x := by
  induction x with
  | nil => simp [normSq, dotQ]
  | cons a t ih =>
    have h : normSq (a :: t) = a * a + normSq t := dotQ_cons a a t t
    nlinarith [mul_self_nonneg a]

/-- Cauchy–Schwarz for the list dot product, squared form. -/
theorem dotQ_sq_le (x y : List ℚ) : (dotQ x y) ^ 2 ≤ normSq x * normSq y := by
  induction x generalizing y with
  | nil => simp [dotQ, normSq]
  | cons a xt ih =>
    cases y with
    | nil =>
      rw [dotQ_nil_right]
      have := normSq_nonneg (a :: xt)
      have := normSq_nonneg ([] : List ℚ)
      simp [normSq, dotQ]
    | cons b yt =>
      have h := ih yt
      have hx := normSq_nonneg xt
      have hy := normSq_nonneg yt
      rw [dotQ_cons, show normSq (a :: xt) = a * a + normSq xt from dotQ_cons a a xt xt,
        show normSq (b :: yt) = b * b + normSq yt from dotQ_cons b b yt yt]
      set D := dotQ xt yt
      set X := normSq xt
      set Y := normSq yt
      have hw : (a * b * D) ^ 2 ≤ (a ^ 2 * Y) * (X * b ^ 2) := by
        nlinarith [sq_nonneg (a * b), h]
      have huv : 0 ≤ a ^ 2 * Y + X * b ^ 2 := by positivity
      have hsq : (2 * (a * b * D)) ^ 2 ≤ (a ^ 2 * Y + X * b ^ 2) ^ 2 := by
        nlinarith [hw, sq_nonneg (a ^ 2 * Y - X * b ^ 2)]
      have h2 : 2 * (a * b * D) ≤ a ^ 2 * Y + X * b ^ 2 := by nlinarith [hsq, huv]
      nlinarith [h, h2]

/-- The cosine similarity of two vectors passing the positive-norm guard
lies in `[-1, 1]`. -/
theorem cosineSim_bounds (x y : List ℚ) (hx : 0 < normSq x)
    (hy : 0 < normSq y) : -1 ≤ cosineSim x y ∧ cosineSim x y ≤ 1 := by
  have hX : (0 : ℝ) < ((normSq x : ℚ) : ℝ) := by exact_mod_cast hx
  have hY : (0 : ℝ) < ((normSq y : ℚ) : ℝ) := by exact_mod_cast hy
  have hA : (((dotQ x y : ℚ) : ℝ)) ^ 2 ≤ ((normSq x : ℚ) : ℝ) * ((normSq y : ℚ) : ℝ) := by
    exact_mod_cast dotQ_sq_le x y
  have hden : 0 < Real.sqrt ((normSq x : ℚ) : ℝ) * Real.sqrt ((normSq y : ℚ) : ℝ) := by
    positivity
  have habs : |((dotQ x y : ℚ) : ℝ)| ≤
      Real.sqrt ((normSq x : ℚ) : ℝ) * Real.sqrt ((normSq y : ℚ) : ℝ) := by
    rw [← Real.sqrt_sq_eq_abs, ← Real.sqrt_mul hX.le]
    exact Real.sqrt_le_sqrt hA
  have h1 : |cosineSim x y| ≤ 1 := by
    rw [cosineSim, abs_div, abs_of_pos hden, div_le_one hden]
    exact habs
  exact abs_le.mp h1

theorem filterMap_simOf_filter (l : List Chunk) :
    (l.filter (fun c => !(c.similarity == some SimValue.null))).filterMap simOf
      = l.filterMap simOf := by
  induction l with
  | nil => rfl
  | cons c t ih =>
    rcases hs : c.similarity with _ | sv
    · simp [List.filter_cons, hs, simOf, List.filterMap_cons, ih]
    · rcases sv with q | _
      · simp [List.filter_cons, hs, simOf, List.filterMap_cons, ih]
      · simp [List.filter_cons, hs, simOf, List.filterMap_cons, ih]

theorem groundingScore_ignores_null (l : List Chunk) :
    groundingScore l
      = groundingScore (l.filter (fun c => !(c.similarity == some SimValue.null))) := by
  by_cases h0 : l.isEmpty
  · have : l = [] := by simpa using h0
    subst this; rfl
  · unfold groundingScore
    rw [filterMap_simOf_filter]
    by_cases h1 : (l.filter (fun c => !(c.similarity == some SimValue.null))).isEmpty
    · have hfm : l.filterMap simOf = [] := by
        rw [← filterMap_simOf_filter]
        have : l.filter (fun c => !(c.similarity == some SimValue.null)) = [] := by
          simpa using h1
        simp [this]
      simp [h0, h1, hfm]
    · have hfm : ¬(l.filterMap simOf).isEmpty := by
        rw [← filterMap_simOf_filter]
        rcases hne : l.filter (fun c => !(c.similarity == some SimValue.null)) with _ | ⟨c, t⟩
        · exact absurd (by simp [hne]) h1
        · have hc : c ∈ l.filter (fun c => !(c.similarity == some SimValue.null)) := by
            simp [hne]
          have hcf := List.mem_filter.mp hc
          have hnn : c.similarity ≠ some SimValue.null := by simpa using hcf.2
          rw [hne]
          rcases hcc : c.similarity with _ | sv
          · simp [List.filterMap_cons, simOf, hcc]
          · rcases sv with q | _
            · simp [List.filterMap_cons, simOf, hcc]
            · exact absurd hcc hnn
      simp [h0, h1, hfm]

theorem groundingScore_mem (l : List Chunk) (s : ℚ)
    (h : groundingScore l = some s) : 0 ≤ s ∧ s ≤ 1 := by
  unfold groundingScore at h
  split at h
  · cases h
  · split at h
    · cases h
    · have hs := Option.some.inj h
      refine ⟨?_, ?_⟩
      · rw [← hs]; exact le_max_left 0 _
      · rw [← hs]; exact max_le (by norm_num) (min_le_left 1 _)

theorem enrichTrigger_iff (l : List Chunk) :
    enrichTrigger l = true
      ↔ l.length < 3 ∨ ∃ s, groundingScore l = some s ∧ s < 11 / 20 := by
  unfold enrichTrigger
  rcases h : groundingScore l with _ | s <;> simp [h]

theorem groundingGate_error_iff (r : List Chunk) (x : List ExtRef) :
    groundingGate r x = .error () ↔ r = [] ∧ x = [] := by
  unfold groundingGate
  split
  · rename_i h
    simp only [Bool.and_eq_true, List.isEmpty_iff] at h
    simp [h]
  · rename_i h
    simp only [Bool.and_eq_true, List.isEmpty_iff] at h
    constructor
    · intro hc; cases hc
    · intro hc; exact absurd hc (by tauto)

theorem groundingGate_ok (r : List Chunk) (x : List ExtRef)
    (h : r ≠ [] ∨ x ≠ []) :
    groundingGate r x = .ok { retrieved := r, externalRefs := x } := by
  unfold groundingGate
  rw [if_neg]
  simp only [Bool.and_eq_true, List.isEmpty_iff]
  tauto

/-! ## Claim theorems -/

/-- Claim C1: when the query yields at least one keyword and neither the
week nor the topic filter is supplied, `_retrieve_generation_context`
raises the no-grounding error exactly when the best keyword-overlap score
among the final `top_k` chunks is zero (equivalently: every final chunk
has overlap zero); supplying an explicit week or topic filter always
yields a normal return, regardless of keyword overlap. -/
theorem c1_grounding_refusal (env : RetrieveEnv) (p : RetrieveParams) :
    ((extractKeywords p.query ≠ [] ∧ p.week = none ∧ p.topic = none) →
      (retrieveCtx env p = .error () ↔ bestOverlap env p = 0))
  ∧ (bestOverlap env p = 0 ↔
      ∀ c ∈ finalTop env p, keywordScore (extractKeywords p.query) c = 0)
  ∧ ((p.week ≠ none ∨ p.topic ≠ none) →
      retrieveCtx env p = .ok (finalTop env p)) := by
  refine ⟨?_, ?_, ?_⟩
  · rintro ⟨hk, hw, ht⟩
    unfold retrieveCtx
    rw [if_pos (by simp [hw, ht, hk])]
    constructor
    · intro h
      by_contra hb
      rw [if_neg hb] at h
      cases h
    · intro hb
      rw [if_pos hb]
  · unfold bestOverlap
    rw [foldr_max_eq_zero]
    simp
  · intro h
    unfold retrieveCtx
    rw [if_neg]
    simp only [Bool.and_eq_true, Option.isNone_iff_eq_none, not_and]
    intro hand ht
    rcases h with h | h
    · exact h hand.2
    · exact h ht

/-- Claim C1 witness: a keyword query against an empty store raises the
no-grounding error; the same query with an explicit topic filter returns
normally (with an empty chunk list). -/
theorem c1_grounding_refusal_witness :
    retrieveCtx envC1a pC1a = .error ()
  ∧ retrieveCtx envC1a pC1topic = .ok [] := by
  constructor
  · exact ((c1_grounding_refusal envC1a pC1a).1 (by decide)).mpr rfl
  · exact ((c1_grounding_refusal envC1a pC1topic).2.2 (by decide)).trans rfl

/-- Claim C2 counterexample: a chunk dictionary without the `similarity`
key is not excluded — `c.get("similarity", 0.0)` defaults it to `0.0` —
so `[{similarity: 0.8}, {}]` scores `0.4`, not the `0.8` exclusion
would give. -/
theorem c2_score_missing_counterexample :
    groundingScore [cSim45, cSimMissing] = some (2 / 5 : ℚ)
  ∧ groundingScore [cSim45, cSimMissing] ≠ some (4 / 5 : ℚ) := by
  have h : groundingScore [cSim45, cSimMissing] = some (2 / 5 : ℚ) := by
    simp [groundingScore, cSim45, cSimMissing, simOf, q45_eq]
    norm_num
  refine ⟨h, ?_⟩
  rw [h]
  intro hc
  rw [Option.some.injEq] at hc
  norm_num at hc

/-- Claim C2 (amended): `_grounding_score` returns `None` on an empty
list; entries whose `similarity` is present but unparseable (`None`) are
excluded from numerator and denominator alike (dropping them never
changes the score), and `[{similarity: 0.8}, {similarity: None}]` scores
`0.8`; any returned score lies in `[0, 1]`. (A chunk *missing* the key
contributes the default `0.0` instead — see the counterexample.) -/
theorem c2_grounding_score (l : List Chunk) (s : ℚ) :
    groundingScore [] = none
  ∧ groundingScore l
      = groundingScore (l.filter (fun c => !(c.similarity == some SimValue.null)))
  ∧ (groundingScore l = some s → 0 ≤ s ∧ s ≤ 1)
  ∧ groundingScore [cSim45, cSimNull] = some (4 / 5 : ℚ) := by
  refine ⟨rfl, groundingScore_ignores_null l, groundingScore_mem l s, ?_⟩
  simp [groundingScore, cSim45, cSimNull, simOf, q45_eq]
  norm_num

/-- Claim C3 counterexample: an image-typed `documents` row returned by
the metadata fallback query is handed back by
`_retrieve_generation_context` — the `type=image` drop is applied only on
the vector-search path. -/
theorem c3_image_counterexample :
    retrieveCtx envC3 pC3 = .ok [imageChunk]
  ∧ imageChunk.type = some "image".data := ⟨rfl, rfl⟩

/-- Claim C3 (amended): `_retrieve_generation_context` never returns an
image-typed chunk out of the vector-search path; any returned image chunk
can only originate from the metadata fallback query, whose results are
not image-filtered. -/
theorem c3_image_only_from_fallback (env : RetrieveEnv) (p : RetrieveParams)
    (out : List Chunk) (c : Chunk) (hok : retrieveCtx env p = .ok out)
    (hc : c ∈ out) (himg : c.type = some "image".data) :
    c ∈ fallbackChunks env p := by
  rcases mem_survivors (mem_finalTop (retrieveCtx_ok_eq hok ▸ hc)) with hv | hf
  · exact absurd himg (mem_vectorSurvivors hv).1
  · exact hf

/-- Claim C3 witness: the concrete image chunk of the counterexample
environment is indeed a fallback-query chunk. -/
theorem c3_witness : imageChunk ∈ fallbackChunks envC3 pC3 :=
  c3_image_only_from_fallback envC3 pC3 [imageChunk] imageChunk rfl
    (List.mem_singleton.mpr rfl) rfl

/-- Claim C4 counterexample: with `include_generated=false`, a
`kind=generated_theory` row returned by the metadata fallback query is
handed back by `_retrieve_generation_context` — the generated-content
exclusion is applied only on the vector-search path. -/
theorem c4_generated_counterexample :
    retrieveCtx envC4 pC4 = .ok [genChunk]
  ∧ pC4.includeGenerated = false
  ∧ isGenMarked genChunk = true := ⟨rfl, rfl, rfl⟩

/-- Claim C4 (amended): with `include_generated=false` a generated-tagged
chunk can only reach the result via the metadata fallback query (the
vector-search path always excludes it); with `include_generated=true` the
filter ignores the generated markers entirely, so such chunks are
eligible. -/
theorem c4_generated_exclusion (env : RetrieveEnv) (p : RetrieveParams)
    (out : List Chunk) (c : Chunk) :
    (p.includeGenerated = false → retrieveCtx env p = .ok out → c ∈ out →
      isGenMarked c = true → c ∈ fallbackChunks env p)
  ∧ (∀ (q : RetrieveParams) (x : Chunk) (src knd : Option (List Char)),
      q.includeGenerated = true →
      matchesFilters q { x with source := src, mdKind := knd }
        = matchesFilters q x) := by
  constructor
  · intro hig hok hc hmk
    rcases mem_survivors (mem_finalTop (retrieveCtx_ok_eq hok ▸ hc)) with hv | hf
    · have hm := (mem_vectorSurvivors hv).2
      simp [matchesFilters, hig, hmk] at hm
    · exact hf
  · intro q x src knd hq
    simp [matchesFilters, hq, matchesMetaFilters]

/-- Claim C4 witness: the concrete generated chunk of the counterexample
environment is a fallback-query chunk. -/
theorem c4_witness : genChunk ∈ fallbackChunks envC4 pC4 :=
  (c4_generated_exclusion envC4 pC4 [genChunk] genChunk).1 rfl rfl
    (List.mem_singleton.mpr rfl) rfl

/-- Claim C5 counterexample: a theory generation call whose three
retrieved chunks all come from the metadata fallback (similarity `None`
each) has an undefined grounding score, yet the enricher is *not*
invoked — `score is not None and score < 0.55` is false for `None` and
the count is not below 3. -/
theorem c5_enrichment_counterexample :
    (retrievedTheory envC5).length = 3
  ∧ groundingScore (retrievedTheory envC5) = none
  ∧ enrichInvokedTheory envC5 = false := ⟨rfl, rfl, rfl⟩

/-- Claim C5 (amended): both generators invoke the enricher exactly when
the retrieved count is below 3 or the grounding score is defined and
below `0.55`; an undefined score with count at least 3 does not trigger
enrichment. Two chunks at similarity `0.9` do trigger it (count below 3)
even though their score `0.9` exceeds `0.55`. -/
theorem c5_enrichment_trigger (eT : TheoryEnv) (eL : LabEnv) :
    (enrichInvokedTheory eT = true ↔
      (retrievedTheory eT).length < 3
      ∨ ∃ s, groundingScore (retrievedTheory eT) = some s ∧ s < 11 / 20)
  ∧ (enrichInvokedLab eL = true ↔
      (retrievedLab eL).length < 3
      ∨ ∃ s, groundingScore (retrievedLab eL) = some s ∧ s < 11 / 20)
  ∧ enrichTrigger [cSim910, cSim910] = true
  ∧ groundingScore [cSim910, cSim910] = some (9 / 10 : ℚ)
  ∧ (11 / 20 : ℚ) < 9 / 10 := by
  refine ⟨enrichTrigger_iff _, enrichTrigger_iff _, rfl, ?_, by norm_num⟩
  simp [groundingScore, cSim910, simOf, q910_eq]
  norm_num

/-- Claim C6: both generators raise the insufficient-grounding error
exactly when the retrieved course chunks and the external references are
both empty — in which case nothing is generated or persisted (`.ok`
states are the only ones that reach generation and the
`generated_materials` insert); with at least one source non-empty,
generation proceeds. -/
theorem c6_insufficient_grounding (eT : TheoryEnv) (eL : LabEnv) :
    (generateTheoryPhase eT = .error () ↔
      retrievedTheory eT = [] ∧ externalsTheory eT = [])
  ∧ ((retrievedTheory eT ≠ [] ∨ externalsTheory eT ≠ []) →
      generateTheoryPhase eT
        = .ok { retrieved := retrievedTheory eT,
                externalRefs := externalsTheory eT })
  ∧ (generateLabPhase eL = .error () ↔
      retrievedLab eL = [] ∧ externalsLab eL = [])
  ∧ ((retrievedLab eL ≠ [] ∨ externalsLab eL ≠ []) →
      generateLabPhase eL
        = .ok { retrieved := retrievedLab eL,
                externalRefs := externalsLab eL }) :=
  ⟨groundingGate_error_iff _ _, groundingGate_ok _ _,
    groundingGate_error_iff _ _, groundingGate_ok _ _⟩

/-- Claim C6 witness (end-to-end scenario B): an empty namespace with a
failing enricher makes the theory generator raise the
insufficient-grounding error. -/
theorem c6_witness : generateTheoryPhase envC6 = .error () :=
  (c6_insufficient_grounding envC6 envLC6).1.mpr ⟨rfl, rfl⟩

/-- Claim C7: every normal return of `_retrieve_generation_context` is
the surviving candidates sorted descending by the pair `(similarity with
None/missing as 0, keyword score)` — similarity primary, keyword score
tie-break — truncated to `top_k`: the result has `min top_k |candidates|`
elements in descending key order, and it is a top-`k` selection — the
output together with some rest is a permutation of the candidates, and
every dropped candidate's key is at most every retained one's. -/
theorem c7_rerank_order (env : RetrieveEnv) (p : RetrieveParams)
    (out : List Chunk) (hok : retrieveCtx env p = .ok out) :
    out.length = min p.topK (survivors env p).length
  ∧ (∀ c ∈ out, c ∈ survivors env p)
  ∧ out.Pairwise (fun a b =>
      simOr0 b < simOr0 a
      ∨ (simOr0 a = simOr0 b
         ∧ keywordScore (extractKeywords p.query) b
             ≤ keywordScore (extractKeywords p.query) a))
  ∧ ∃ rest, List.Perm (out ++ rest) (survivors env p)
      ∧ ∀ c ∈ out, ∀ c' ∈ rest,
          simOr0 c' < simOr0 c
          ∨ (simOr0 c = simOr0 c'
             ∧ keywordScore (extractKeywords p.query) c'
                 ≤ keywordScore (extractKeywords p.query) c) := by
  have he := retrieveCtx_ok_eq hok
  subst he
  have hp := sortDesc_pairwise (chunkGe_total (extractKeywords p.query))
    (chunkGe_trans (extractKeywords p.query)) (survivors env p)
  refine ⟨?_, ?_, ?_, ?_⟩
  · unfold finalTop
    rw [List.length_take, (sortDesc_perm _ _).length_eq]
  · intro c hc
    exact mem_finalTop hc
  · have hp2 := hp.sublist (List.take_sublist p.topK _)
    refine hp2.imp ?_
    intro a b hab
    have h := (pairGe_iff _ _).mp hab
    simpa [rerankKey] using h
  · unfold finalTop
    refine ⟨(sortDesc (chunkGe (extractKeywords p.query)) (survivors env p)).drop p.topK,
      ?_, ?_⟩
    · rw [List.take_append_drop]
      exact sortDesc_perm _ _
    · intro c hc c' hc'
      have hpa : List.Pairwise
          (fun x y => chunkGe (extractKeywords p.query) x y = true)
          ((sortDesc (chunkGe (extractKeywords p.query)) (survivors env p)).take p.topK
            ++ (sortDesc (chunkGe (extractKeywords p.query)) (survivors env p)).drop p.topK) := by
        rw [List.take_append_drop]
        exact hp
      have hcross := (List.pairwise_append.mp hpa).2.2 c hc c' hc'
      have h := (pairGe_iff _ _).mp hcross
      simpa [rerankKey] using h

/-- Claim C7 witness: a concrete store where the lower-similarity chunk
arrives first; the returned list is reordered descending, and it is a
maximal selection (all dropped candidates rank no higher). -/
theorem c7_witness :
    ([cHi, cLo] : List Chunk).Pairwise (fun a b =>
      simOr0 b < simOr0 a
      ∨ (simOr0 a = simOr0 b
         ∧ keywordScore (extractKeywords pC7.query) b
             ≤ keywordScore (extractKeywords pC7.query) a))
  ∧ ∃ rest, List.Perm ([cHi, cLo] ++ rest) (survivors envC7 pC7)
      ∧ ∀ c ∈ ([cHi, cLo] : List Chunk), ∀ c' ∈ rest,
          simOr0 c' < simOr0 c
          ∨ (simOr0 c = simOr0 c'
             ∧ keywordScore (extractKeywords pC7.query) c'
                 ≤ keywordScore (extractKeywords pC7.query) c) :=
  ⟨(c7_rerank_order envC7 pC7 [cHi, cLo] rfl).2.2.1,
    (c7_rerank_order envC7 pC7 [cHi, cLo] rfl).2.2.2⟩

/-- Claim C8: in the in-process scan shared by `similarity_search` and
`similarity_search_by_user`, a similarity value is attached only to
documents passing the positive-norm guard, and every such value lies in
`[-1, 1]`; a document with a zero-norm embedding (or a zero-norm query)
is skipped, never divided by. -/
theorem c8_cosine_guard (qv : List ℚ) (docs : List ScanDoc) (d : ScanDoc) :
    (d ∈ scanResults qv docs →
      (0 < normSq qv ∧ 0 < normSq d.embedding)
      ∧ (-1 ≤ cosineSim qv d.embedding ∧ cosineSim qv d.embedding ≤ 1))
  ∧ ((normSq qv = 0 ∨ normSq d.embedding = 0) → d ∉ scanResults qv docs) := by
  constructor
  · intro h
    have hm := List.mem_filter.mp h
    have hg : 0 < normSq qv ∧ 0 < normSq d.embedding := by simpa using hm.2
    exact ⟨hg, cosineSim_bounds _ _ hg.1 hg.2⟩
  · intro h0 hmem
    have hm := List.mem_filter.mp hmem
    have hg : 0 < normSq qv ∧ 0 < normSq d.embedding := by simpa using hm.2
    rcases h0 with h0 | h0
    · rw [h0] at hg
      exact lt_irrefl 0 hg.1
    · rw [h0] at hg
      exact lt_irrefl 0 hg.2

/-- Claim C8 witness: a unit query vector against one orthogonal unit
document and one zero document — the former's similarity is bounded, the
latter is skipped. -/
theorem c8_witness :
    (-1 ≤ cosineSim qW dW.embedding ∧ cosineSim qW dW.embedding ≤ 1)
  ∧ dZero ∉ scanResults qW docsW := by
  constructor
  · exact ((c8_cosine_guard qW docsW dW).1
      (by simp [scanResults, docsW, qW, dW, normSq, dotQ])).2
  · exact (c8_cosine_guard qW docsW dZero).2
      (Or.inr (by simp [dZero, normSq, dotQ]))

/-- Claim C9: with every Wikipedia request failing, the first
`enrich_topic("avl")` call issues two network requests (summary, then
search) and returns `[]`; a second call 10 seconds later — well within
the 3600-second TTL — still issues one request: the summary failure was
cached as `None`, which `_cache_get`'s caller cannot distinguish from a
miss, so the summary request is re-issued (only the search fallback is
suppressed, its failure having been cached as `[]`). The claim's
"returns without re-issuing the network request" fails for the summary
path. -/
theorem c9_cache_refetch :
    (enrichTopic .raise .raise 0 [] "avl".data).1 = []
  ∧ (enrichTopic .raise .raise 0 [] "avl".data).2.2 = 2
  ∧ (enrichTopic .raise .raise 10
      (enrichTopic .raise .raise 0 [] "avl".data).2.1 "avl".data).1 = []
  ∧ (enrichTopic .raise .raise 10
      (enrichTopic .raise .raise 0 [] "avl".data).2.1 "avl".data).2.2 = 1 :=
  ⟨rfl, rfl, rfl, rfl⟩

/-- Claim C10: when the language-filtered first retrieval raises the
no-grounding error, `generate_lab_material` silently retries with the
same query, category, week and topic filters but no language filter, and
uses that result (or `[]` if it also fails) — so lab grounding can come
from chunks stored under a different language. -/
theorem c10_lab_language_retry (e : LabEnv)
    (hfail : retrieveCtx (labEnv1 e) (labParams1 e) = .error ()) :
    retrievedLab e
      = (match retrieveCtx (labEnv2 e) (labParams2 e) with
         | .ok l => l
         | .error _ => [])
  ∧ (labParams2 e).language = none
  ∧ (labParams2 e).category = (labParams1 e).category
  ∧ (labParams2 e).week = (labParams1 e).week
  ∧ (labParams2 e).topic = (labParams1 e).topic
  ∧ (labParams2 e).query = (labParams1 e).query := by
  refine ⟨?_, rfl, rfl, rfl, rfl, rfl⟩
  unfold retrievedLab
  rw [hfail]

/-- Claim C10 witness: requesting python against a store holding only a
java lab chunk — the first call fails, the retry returns the java
chunk. -/
theorem c10_witness :
    retrievedLab envC10 = [javaChunk]
  ∧ javaChunk.mdLanguage = some "java".data
  ∧ (labParams1 envC10).language = some "python".data := by
  refine ⟨?_, rfl, rfl⟩
  exact ((c10_lab_language_retry envC10 rfl).1).trans rfl
